import Mathlib

set_option maxRecDepth 4000

/-!
Verification development for the adaptive retrieval orchestrator repository.

The chat frontend (the `ChatProvider.sendMessage` context function and the
`ChatWidget` component) is embedded from the TypeScript sources.  The backend
components (semantic router, web search loop, model competition manager,
progress tracker) are present in the repository only through their
documentation; their definitions below are modelled from the specification
text, as marked in each doc comment.
-/

/-! Chat frontend: message roles and query types, from the TypeScript types. -/

inductive Role where
  | user
  | assistant
  | system
  deriving DecidableEq, Repr

inductive QueryType where
  | scientific
  | creative
  | general
  | web
  deriving DecidableEq, Repr

/-- The `temperatureMap` record from `ChatProvider.sendMessage`:
scientific 0.1, creative 1.3, general 0.7, web 0.3. -/
def temperatureMap : QueryType → ℚ
  | .scientific => 1/10
  | .creative => 13/10
  | .general => 7/10
  | .web => 3/10

/-- The default value of the `queryType` parameter of `sendMessage`. -/
def defaultQueryType : QueryType := .general

/-- `temperature !== undefined ? temperature : temperatureMap[queryType]`. -/
def finalTemperature (temperature : Option ℚ) (queryType : QueryType) : ℚ :=
  match temperature with
  | some t => t
  | none => temperatureMap queryType

structure Message where
  role : Role
  content : String
  deriving DecidableEq, Repr

/-- The JSON body `sendMessage` posts to the chat completion endpoint. -/
structure ChatRequest where
  messages : List Message
  temperature : ℚ
  maxTokens : Nat
  stream : Bool
  deriving DecidableEq, Repr

def buildRequest (content : String) (queryType : QueryType)
    (temperature : Option ℚ) : ChatRequest :=
  { messages := [{ role := .user, content := content }],
    temperature := finalTemperature temperature queryType,
    maxTokens := 1000,
    stream := false }

/-- Outcome of the `fetch` call inside `sendMessage`: an ok response carrying
an optional `answer` field, a non-ok HTTP status, or a rejected promise. -/
inductive FetchOutcome where
  | ok (answer : Option String)
  | notOk
  | networkError
  deriving DecidableEq, Repr

/-- The fixed assistant message appended on the catch path of `sendMessage`. -/
def requestErrorText : String :=
  "Sorry, there was an error processing your request. Please try again."

/-- The fallback used when `data.answer` is absent or empty (JS falsy). -/
def emptyAnswerText : String := "Sorry, I couldn\x27t process your request."

/-- Content of the assistant message appended by `sendMessage`:
`data.answer || fallback` on an ok response, and the fixed error text when the
response is non-ok (the thrown error is caught) or the fetch rejects. -/
def assistantContent : FetchOutcome → String
  | .ok (some a) => if a = "" then emptyAnswerText else a
  | .ok none => emptyAnswerText
  | .notOk => requestErrorText
  | .networkError => requestErrorText

structure ChatState where
  messages : List Message
  isLoading : Bool
  deriving DecidableEq, Repr

/-- `ChatProvider.sendMessage`: appends the user message, issues the request,
then appends either the assistant answer or the fixed error message, and
clears the loading flag in the `finally` block.  The result is the final chat
state together with the request that was sent. -/
def sendMessage (st : ChatState) (content : String) (queryType : QueryType)
    (temperature : Option ℚ) (outcome : FetchOutcome) :
    ChatState × ChatRequest :=
  ({ messages := st.messages ++
      [{ role := .user, content := content },
       { role := .assistant, content := assistantContent outcome }],
     isLoading := false },
   buildRequest content queryType temperature)

/-! Chat widget: submission guards and the input length cap. -/

structure WidgetState where
  inputValue : String
  charCount : Nat
  isLoading : Bool
  deriving DecidableEq, Repr

/-- `const maxChars = 500` in `ChatWidget`. -/
def maxChars : Nat := 500

/-- JavaScript `String.prototype.trim`: strip leading and trailing
whitespace. -/
def jsTrim (s : String) : String :=
  String.mk (((s.data.dropWhile Char.isWhitespace).reverse.dropWhile
    Char.isWhitespace).reverse)

/-- `ChatWidget.handleInputChange`: the new value is accepted only when its
length does not exceed `maxChars`; otherwise the state is left unchanged. -/
def handleInputChange (st : WidgetState) (value : String) : WidgetState :=
  if value.length ≤ maxChars then
    { st with inputValue := value, charCount := value.length }
  else st

/-- `ChatWidget.handleSubmit`: `const text = messageText || inputValue.trim()`
followed by `if (!text || isLoading) return`.  Returns the text passed to
`sendMessage`, or `none` when the guard fires. -/
def handleSubmit (st : WidgetState) (messageText : Option String) :
    Option String :=
  let text :=
    match messageText with
    | some m => if m = "" then jsTrim st.inputValue else m
    | none => jsTrim st.inputValue
  if text = "" ∨ st.isLoading then none else some text

/-- A 501-character input, used to exercise the length guard. -/
def longInput : String := String.mk (List.replicate 501 'a')

/-! Semantic router.  The Python backend is documented but not present in the
sources, so the router is modelled from the specification. -/

/-- Modelled from the spec: a similarity hit produced by a corpus lookup — a
chunk reference with its cosine similarity score.  The backend router module
is missing from the sources. -/
structure SimilarityHit where
  chunkId : Nat
  text : String
  score : ℚ
  deriving DecidableEq, Repr

/-- Modelled from the spec: router configuration (top-K, similarity
threshold, minimum hits), with defaults K=5, threshold 0.35, min-hits 2 from
`RAG_SCORE_THRESHOLD` / `RAG_MIN_HITS` / `MAX_SEARCH_RESULTS`. -/
structure RouterConfig where
  topK : Nat
  scoreThreshold : ℚ
  minHits : Nat
  deriving DecidableEq, Repr

def defaultRouterConfig : RouterConfig :=
  { topK := 5, scoreThreshold := 35/100, minHits := 2 }

/-- Modelled from the spec: the corpus store is either unreachable or
available with a known size. -/
inductive CorpusStatus where
  | unreachable
  | available (size : Nat)
  deriving DecidableEq, Repr

/-- Modelled from the spec: the routing decision — RAG with the qualifying
chunks attached as context, or web search. -/
inductive RouteDecision where
  | rag (context : List SimilarityHit)
  | web
  deriving DecidableEq, Repr

/-- The hits among the top-K whose score reaches the similarity threshold. -/
def qualifyingHits (cfg : RouterConfig) (hits : List SimilarityHit) :
    List SimilarityHit :=
  hits.filter (fun h => cfg.scoreThreshold ≤ h.score)

/-- Modelled from the spec: `route` — count the top-K hits at or above the
threshold; return RAG with the qualifying chunks when the count reaches
min-hits and the corpus is non-empty, otherwise WEB; an unreachable or empty
corpus always yields WEB (the missing backend router module implements the
RAG-vs-web decision). -/
def route (cfg : RouterConfig) (corpus : CorpusStatus)
    (hits : List SimilarityHit) : RouteDecision :=
  match corpus with
  | .unreachable => .web
  | .available size =>
    if cfg.minHits ≤ (qualifyingHits cfg hits).length ∧ size ≠ 0 then
      .rag (qualifyingHits cfg hits)
    else .web

/-! Web search engine.  The backend search module is missing from the
sources; the iterative loop is modelled from the specification. -/

/-- Modelled from the spec: the outcome of one page fetch — extracted text,
or a recorded error. -/
inductive FetchResult where
  | extracted (text : String)
  | failed (error : String)
  deriving DecidableEq, Repr

structure FetchRec where
  url : String
  result : FetchResult
  deriving DecidableEq, Repr

/-- Texts of the successful fetches, in order; failed fetches are excluded
from synthesis. -/
def extractedTexts (rs : List FetchRec) : List String :=
  rs.filterMap (fun r =>
    match r.result with
    | .extracted t => some t
    | .failed _ => none)

/-- The recorded (url, error) pairs of the failed fetches. -/
def recordedErrors (rs : List FetchRec) : List (String × String) :=
  rs.filterMap (fun r =>
    match r.result with
    | .extracted _ => none
    | .failed e => some (r.url, e))

/-- `MAX_PAGE_LENGTH`: per-source character budget at synthesis. -/
def maxPageLength : Nat := 8000

/-- Modelled from the spec: synthesis concatenates the extracted texts, each
truncated to the per-source character budget. -/
def synthesizeTexts (texts : List String) : String :=
  String.intercalate "\n\n" (texts.map (fun t => t.take maxPageLength))

/-- Modelled from the spec: one search iteration's fetched results. -/
structure IterationData where
  results : List FetchRec
  deriving DecidableEq, Repr

/-- Modelled from the spec: the sufficiency heuristic — aggregate extracted
text exceeds a minimum length and at least one source succeeded. -/
def isSufficient (minLen : Nat) (it : IterationData) : Bool :=
  decide (minLen < (String.join (extractedTexts it.results)).length)
    && it.results.any (fun r =>
        match r.result with
        | .extracted _ => true
        | .failed _ => false)

/-- Modelled from the spec: the final state of a search session — the
synthesized best-effort answer, source urls, the iterations gathered, and
whether sufficiency was reached (`false` marks the answer as partial). -/
structure SearchOutcome where
  answer : String
  sources : List String
  iterationsRun : Nat
  sufficiencyReached : Bool
  gathered : List IterationData
  deriving DecidableEq, Repr

/-- Modelled from the spec: the refine→fetch→assess loop.  `env n` is the
search/fetch result of round `n`; the loop stops early when an iteration is
sufficient and otherwise runs until the iteration cap is exhausted, returning
everything gathered plus the sufficiency flag. -/
def runSearchAux (env : Nat → IterationData) (suff : IterationData → Bool) :
    Nat → Nat → List IterationData → List IterationData × Bool
  | 0, _, acc => (acc, false)
  | fuel + 1, round, acc =>
    if suff (env round) then (acc ++ [env round], true)
    else runSearchAux env suff fuel (round + 1) (acc ++ [env round])

/-- Urls of the successful fetches of the gathered iterations. -/
def gatheredSources (iters : List IterationData) : List String :=
  (iters.map (fun it =>
    it.results.filterMap (fun r =>
      match r.result with
      | .extracted _ => some r.url
      | .failed _ => none))).flatten

/-- Modelled from the spec: `run(query, max_iterations)` — exhausting the cap
without sufficiency is not a failure; the best-effort answer is synthesized
from whatever was gathered and flagged as partial. -/
def runSearch (env : Nat → IterationData) (suff : IterationData → Bool)
    (maxIterations : Nat) : SearchOutcome :=
  let r := runSearchAux env suff maxIterations 0 []
  { answer := synthesizeTexts ((r.1.map (fun it =>
      extractedTexts it.results)).flatten),
    sources := gatheredSources r.1,
    iterationsRun := r.1.length,
    sufficiencyReached := r.2,
    gathered := r.1 }

/-! Model competition manager.  The backend competition module is missing
from the sources; scoring and selection are modelled from the specification
and the competition documentation. -/

/-- Modelled from the spec: one provider's attempt at the prompt. -/
structure ProviderAttempt where
  provider : String
  success : Bool
  latency : ℚ
  answer : String
  deriving DecidableEq, Repr

/-- Modelled from the spec: per-provider rolling counters. -/
structure ProviderStats where
  totalAttempts : Nat
  successes : Nat
  cumulativeLatency : ℚ
  deriving DecidableEq, Repr

/-- Record one attempt into a provider's rolling counters. -/
def recordAttempt (s : ProviderStats) (a : ProviderAttempt) : ProviderStats :=
  { totalAttempts := s.totalAttempts + 1,
    successes := s.successes + (if a.success then 1 else 0),
    cumulativeLatency := s.cumulativeLatency + a.latency }

/-- Modelled from the spec: `score = success_rate*0.7 + speed_factor*0.3`,
with the historical success rate including this attempt and the speed factor
the inverse of the average response time. -/
def score (stats : String → ProviderStats) (a : ProviderAttempt) : ℚ :=
  let st := recordAttempt (stats a.provider) a
  let successRate : ℚ := (st.successes : ℚ) / (st.totalAttempts : ℚ)
  let avgLatency : ℚ := st.cumulativeLatency / (st.totalAttempts : ℚ)
  successRate * (7/10) + (1 / avgLatency) * (3/10)

/-- Modelled from the spec: of two succeeded attempts the higher score wins;
on an exact score tie the lower latency for this specific attempt wins. -/
def betterAttempt (stats : String → ProviderStats) (x y : ProviderAttempt) :
    ProviderAttempt :=
  if score stats x < score stats y then y
  else if score stats x = score stats y ∧ y.latency < x.latency then y
  else x

/-- Winner among the succeeded attempts, `none` when there are none. -/
def selectWinner (stats : String → ProviderStats) :
    List ProviderAttempt → Option ProviderAttempt
  | [] => none
  | a :: rest => some (rest.foldl (betterAttempt stats) a)

inductive CompetitionError where
  | noProviderAvailable
  deriving DecidableEq, Repr

structure CompetitionResult where
  attempts : List ProviderAttempt
  winner : ProviderAttempt
  deriving DecidableEq, Repr

/-- Stats of provider `p` after every attempt of the call is recorded. -/
def statsAfter (stats : String → ProviderStats)
    (attempts : List ProviderAttempt) (p : String) : ProviderStats :=
  attempts.foldl
    (fun st a => if a.provider = p then recordAttempt st a else st) (stats p)

/-- Modelled from the spec: `compete` — select a winner among the succeeded
attempts; when no provider succeeds, surface the no-provider-available error
instead of any partial answer. -/
def compete (stats : String → ProviderStats)
    (attempts : List ProviderAttempt) :
    Except CompetitionError CompetitionResult :=
  match selectWinner stats (attempts.filter (fun a => a.success)) with
  | none => .error .noProviderAvailable
  | some w => .ok { attempts := attempts, winner := w }

/-! Progress tracker.  The backend progress module is missing from the
sources; the session state machine is modelled from the specification. -/

/-- The four session states documented for progress sessions. -/
inductive ProgressState where
  | starting
  | running
  | completed
  | error
  deriving DecidableEq, Repr

def isTerminal : ProgressState → Bool
  | .completed => true
  | .error => true
  | _ => false

/-- Modelled from the spec: a progress session snapshot. -/
structure ProgressSession where
  state : ProgressState
  completedUnits : Nat
  totalUnits : Nat
  message : String
  deriving DecidableEq, Repr

/-- The write operations of the progress tracker's API. -/
inductive ProgressOp where
  | update (units : Nat) (msg : String)
  | fail (reason : String)
  | complete (msg : String)
  deriving DecidableEq, Repr

/-- Modelled from the spec: applying one write to a session.  Writes against
a terminal session are ignored (not errored); an update keeps the
completed-unit count non-decreasing, per the documented invariant. -/
def applyOp (s : ProgressSession) : ProgressOp → ProgressSession
  | .update units msg =>
    if isTerminal s.state then s
    else { s with state := .running,
                  completedUnits := max s.completedUnits units,
                  message := msg }
  | .fail reason =>
    if isTerminal s.state then s
    else { s with state := .error, message := reason }
  | .complete msg =>
    if isTerminal s.state then s
    else { s with state := .completed, message := msg }

/-! Concrete data used by the witnesses. -/

/-- A search/fetch stub that never returns any result, so sufficiency is
never reached. -/
def stubEnv : Nat → IterationData := fun _ => { results := [] }

/-- Fresh provider statistics: no attempts recorded yet. -/
def zeroStats : String → ProviderStats :=
  fun _ => { totalAttempts := 0, successes := 0, cumulativeLatency := 0 }

/-- A succeeding attempt with latency 1.0s (average latency 1.0s against
fresh stats). -/
def attemptA : ProviderAttempt :=
  { provider := "groq", success := true, latency := 1, answer := "answer a" }

/-- A succeeding attempt with latency 2.0s (average latency 2.0s against
fresh stats). -/
def attemptB : ProviderAttempt :=
  { provider := "openai", success := true, latency := 2, answer := "answer b" }

/-- A failed attempt. -/
def failedAttempt : ProviderAttempt :=
  { provider := "groq", success := false, latency := 1, answer := "" }

/-- C8: with no explicit temperature, the temperature sent to the chat API is
the declared intent's default (scientific 0.1, creative 1.3, general 0.7,
web 0.3); an explicit temperature always overrides the intent default; and the
intent defaults to general when none is declared. -/
theorem sendMessage_temperature_defaults (st : ChatState) (content : String)
    (o : FetchOutcome) :
    (sendMessage st content .scientific none o).2.temperature = 1/10
    ∧ (sendMessage st content .creative none o).2.temperature = 13/10
    ∧ (sendMessage st content .general none o).2.temperature = 7/10
    ∧ (sendMessage st content .web none o).2.temperature = 3/10
    ∧ (∀ t qt, (sendMessage st content qt (some t) o).2.temperature = t)
    ∧ defaultQueryType = .general := by
  refine ⟨rfl, rfl, rfl, rfl, fun t qt => rfl, rfl⟩

/-- C9: every call to sendMessage appends exactly two messages — the user
message first, then the assistant answer, or the fixed error message when the
request fails or returns a non-ok status — and resets the loading flag to
false on every path; as a total function it never throws to the caller. -/
theorem sendMessage_appends_two_resets_loading (st : ChatState)
    (content : String) (qt : QueryType) (temp : Option ℚ)
    (outcome : FetchOutcome) :
    (sendMessage st content qt temp outcome).1.messages =
      st.messages ++
        [{ role := .user, content := content },
         { role := .assistant, content := assistantContent outcome }]
    ∧ (sendMessage st content qt temp outcome).1.isLoading = false
    ∧ assistantContent .notOk = requestErrorText
    ∧ assistantContent .networkError = requestErrorText
    ∧ (∀ a, a ≠ "" → assistantContent (.ok (some a)) = a) := by
  refine ⟨rfl, rfl, rfl, rfl, fun a ha => ?_⟩
  simp [assistantContent, ha]

/-- C9 witness at a concrete state and a concrete successful answer. -/
theorem sendMessage_appends_two_resets_loading_witness :
    ("hello" : String) ≠ ""
    ∧ (sendMessage { messages := [], isLoading := true } "hi" .general none
        (.ok (some "hello"))).1.isLoading = false
    ∧ assistantContent (.ok (some "hello")) = "hello" :=
  ⟨by decide,
   (sendMessage_appends_two_resets_loading { messages := [], isLoading := true }
     "hi" .general none (.ok (some "hello"))).2.1,
   (sendMessage_appends_two_resets_loading { messages := [], isLoading := true }
     "hi" .general none (.ok (some "hello"))).2.2.2.2 "hello" (by decide)⟩

/-- C10: a submission with empty or whitespace-only input text, or made while
a previous request is loading, never invokes sendMessage, and input accepted
by the widget never exceeds 500 characters (longer input is rejected at
entry). -/
theorem widget_submit_guards_and_char_limit (st : WidgetState)
    (value : String) (mt : Option String) :
    (st.isLoading = true → handleSubmit st mt = none)
    ∧ (jsTrim st.inputValue = "" → handleSubmit st none = none)
    ∧ (maxChars < value.length → handleInputChange st value = st)
    ∧ (st.inputValue.length ≤ maxChars →
        (handleInputChange st value).inputValue.length ≤ maxChars) := by
  refine ⟨fun h1 => ?_, fun h2 => ?_, fun h3 => ?_, fun h4 => ?_⟩
  · cases mt with
    | none => simp [handleSubmit, h1]
    | some m => simp [handleSubmit, h1]
  · simp [handleSubmit, h2]
  · simp only [handleInputChange]
    rw [if_neg (by omega)]
  · simp only [handleInputChange]
    split
    · simpa using by assumption
    · exact h4

/-- C10 witness: whitespace-only input, a loading state, and a 501-character
input each hit the corresponding guard. -/
theorem widget_submit_guards_and_char_limit_witness :
    (WidgetState.mk "ok" 2 true).isLoading = true
    ∧ handleSubmit (WidgetState.mk "ok" 2 true) none = none
    ∧ jsTrim (WidgetState.mk "   " 3 false).inputValue = ""
    ∧ handleSubmit (WidgetState.mk "   " 3 false) none = none
    ∧ maxChars < longInput.length
    ∧ handleInputChange (WidgetState.mk "" 0 false) longInput =
        WidgetState.mk "" 0 false :=
  ⟨rfl,
   (widget_submit_guards_and_char_limit (WidgetState.mk "ok" 2 true) "" none).1
     rfl,
   by decide,
   (widget_submit_guards_and_char_limit (WidgetState.mk "   " 3 false) ""
     none).2.1 (by decide),
   by decide,
   (widget_submit_guards_and_char_limit (WidgetState.mk "" 0 false) longInput
     none).2.2.1 (by decide)⟩

/-- C1: for an available corpus, route returns RAG with the qualifying
chunks attached exactly when at least min-hits (default 2) of the top-K
(default 5) chunks score at or above the threshold (default 0.35) and the
corpus is non-empty; in every other case it returns WEB. -/
theorem route_rag_iff_hits (cfg : RouterConfig) (size : Nat)
    (hits : List SimilarityHit) :
    (route cfg (.available size) hits = .rag (qualifyingHits cfg hits) ↔
      cfg.minHits ≤ (qualifyingHits cfg hits).length ∧ size ≠ 0)
    ∧ (¬(cfg.minHits ≤ (qualifyingHits cfg hits).length ∧ size ≠ 0) →
        route cfg (.available size) hits = .web)
    ∧ defaultRouterConfig.minHits = 2
    ∧ defaultRouterConfig.scoreThreshold = 35/100
    ∧ defaultRouterConfig.topK = 5 := by
  refine ⟨⟨fun h => ?_, fun h => ?_⟩, fun h => ?_, rfl, rfl, rfl⟩
  · by_contra hc
    simp only [route] at h
    rw [if_neg hc] at h
    exact RouteDecision.noConfusion h
  · simp only [route]
    rw [if_pos h]
  · simp only [route]
    rw [if_neg h]

/-- C1 witness: two qualifying hits in a non-empty corpus route to RAG, and
no hits over an empty corpus route to WEB. -/
theorem route_rag_iff_hits_witness :
    (defaultRouterConfig.minHits ≤
        (qualifyingHits defaultRouterConfig
          [⟨0, "a", 1/2⟩, ⟨1, "b", 2/5⟩]).length ∧ (1 : Nat) ≠ 0)
    ∧ route defaultRouterConfig (.available 1) [⟨0, "a", 1/2⟩, ⟨1, "b", 2/5⟩]
        = .rag (qualifyingHits defaultRouterConfig
            [⟨0, "a", 1/2⟩, ⟨1, "b", 2/5⟩])
    ∧ ¬(defaultRouterConfig.minHits ≤
          (qualifyingHits defaultRouterConfig []).length ∧ (0 : Nat) ≠ 0)
    ∧ route defaultRouterConfig (.available 0) [] = .web := by
  have h1 : defaultRouterConfig.minHits ≤
      (qualifyingHits defaultRouterConfig
        [⟨0, "a", 1/2⟩, ⟨1, "b", 2/5⟩]).length ∧ (1 : Nat) ≠ 0 := by
    refine ⟨?_, by norm_num⟩
    norm_num [qualifyingHits, defaultRouterConfig, List.filter]
  have h2 : ¬(defaultRouterConfig.minHits ≤
      (qualifyingHits defaultRouterConfig []).length ∧ (0 : Nat) ≠ 0) := by
    norm_num [qualifyingHits, defaultRouterConfig]
  exact ⟨h1,
    (route_rag_iff_hits defaultRouterConfig 1
      [⟨0, "a", 1/2⟩, ⟨1, "b", 2/5⟩]).1.mpr h1,
    h2,
    (route_rag_iff_hits defaultRouterConfig 0 []).2.1 h2⟩

/-- C7: when the corpus store is unreachable or the corpus is empty, route
returns WEB; the decision type has no error alternative, so the condition is
recovered locally and never surfaced to the caller. -/
theorem route_web_on_unreachable_or_empty (cfg : RouterConfig)
    (hits : List SimilarityHit) :
    route cfg .unreachable hits = .web
    ∧ route cfg (.available 0) hits = .web := by
  refine ⟨rfl, ?_⟩
  simp only [route]
  rw [if_neg (by simp)]

/-- Helper: the search loop gathers at most `fuel` further iterations. -/
theorem runSearchAux_length_le (env : Nat → IterationData)
    (suff : IterationData → Bool) :
    ∀ (fuel round : Nat) (acc : List IterationData),
      (runSearchAux env suff fuel round acc).1.length ≤ acc.length + fuel
  | 0, _, acc => by simp [runSearchAux]
  | fuel + 1, round, acc => by
    simp only [runSearchAux]
    split
    · simp
    · have h := runSearchAux_length_le env suff fuel (round + 1)
        (acc ++ [env round])
      simp only [List.length_append, List.length_cons, List.length_nil] at h
      omega

/-- Helper: when no iteration is ever sufficient, the loop uses all its fuel
and reports sufficiency not reached. -/
theorem runSearchAux_never_sufficient (env : Nat → IterationData)
    (suff : IterationData → Bool) (hns : ∀ n, suff (env n) = false) :
    ∀ (fuel round : Nat) (acc : List IterationData),
      (runSearchAux env suff fuel round acc).1.length = acc.length + fuel
      ∧ (runSearchAux env suff fuel round acc).2 = false
  | 0, _, acc => by simp [runSearchAux]
  | fuel + 1, round, acc => by
    simp only [runSearchAux, hns round, Bool.false_eq_true, if_false]
    have h := runSearchAux_never_sufficient env suff hns fuel (round + 1)
      (acc ++ [env round])
    refine ⟨?_, h.2⟩
    rw [h.1]
    simp only [List.length_append, List.length_cons, List.length_nil]
    omega

/-- C3: the web search loop runs at most max-iterations iterations; when the
search/fetch results never reach sufficiency it terminates after exactly
max-iterations (3 with the default cap), and exhausting the cap is not a
failure: the outcome carries a best-effort answer synthesized from whatever
was gathered, flagged as partial by the unset sufficiency flag. -/
theorem search_loop_iteration_cap (env : Nat → IterationData)
    (suff : IterationData → Bool) (maxIterations : Nat) :
    (runSearch env suff maxIterations).iterationsRun ≤ maxIterations
    ∧ ((∀ n, suff (env n) = false) →
        (runSearch env suff maxIterations).iterationsRun = maxIterations
        ∧ (runSearch env suff maxIterations).sufficiencyReached = false
        ∧ (runSearch env suff maxIterations).answer =
            synthesizeTexts (((runSearch env suff maxIterations).gathered.map
              (fun it => extractedTexts it.results)).flatten)) := by
  constructor
  · have h := runSearchAux_length_le env suff maxIterations 0 []
    simpa [runSearch] using h
  · intro hns
    have h := runSearchAux_never_sufficient env suff hns maxIterations 0 []
    exact ⟨by simpa [runSearch] using h.1, by simpa [runSearch] using h.2, rfl⟩

/-- Helper: the empty stub iteration is never sufficient. -/
theorem stubEnv_never_sufficient : ∀ n, isSufficient 200 (stubEnv n) = false :=
  fun _ => rfl

/-- C3 witness: with max-iterations 3 and a stub that never reaches
sufficiency, the session runs exactly 3 iterations and the answer is flagged
as partial. -/
theorem search_loop_iteration_cap_witness :
    isSufficient 200 (stubEnv 0) = false
    ∧ (runSearch stubEnv (isSufficient 200) 3).iterationsRun = 3
    ∧ (runSearch stubEnv (isSufficient 200) 3).sufficiencyReached = false :=
  ⟨stubEnv_never_sufficient 0,
   ((search_loop_iteration_cap stubEnv (isSufficient 200) 3).2
     stubEnv_never_sufficient).1,
   ((search_loop_iteration_cap stubEnv (isSufficient 200) 3).2
     stubEnv_never_sufficient).2.1⟩

/-- C6: a failed fetch is excluded from synthesis but recorded with its
error, and the extracted texts of all other fetches still contribute to the
synthesized answer; extraction is total, so the failure never aborts the
iteration. -/
theorem failed_fetch_excluded_others_contribute (pre post : List FetchRec)
    (url e : String) :
    extractedTexts (pre ++ { url := url, result := .failed e } :: post) =
      extractedTexts pre ++ extractedTexts post
    ∧ (url, e) ∈
        recordedErrors (pre ++ { url := url, result := .failed e } :: post)
    ∧ synthesizeTexts
        (extractedTexts (pre ++ { url := url, result := .failed e } :: post))
        = synthesizeTexts (extractedTexts pre ++ extractedTexts post) := by
  have h1 : extractedTexts (pre ++ { url := url, result := .failed e } :: post)
      = extractedTexts pre ++ extractedTexts post := by
    simp [extractedTexts, List.filterMap_append, List.filterMap_cons]
  refine ⟨h1, ?_, by rw [h1]⟩
  simp [recordedErrors, List.filterMap_append, List.filterMap_cons]

/-- C2: among two succeeded attempts the one with the strictly higher score
wins; on an exact score tie the one with the lower latency for this specific
attempt wins; selection is a pure function of the inputs, so identical inputs
select the same winner on every trial. -/
theorem competition_scoring_winner (stats : String → ProviderStats)
    (x y : ProviderAttempt) :
    (score stats x < score stats y → selectWinner stats [x, y] = some y)
    ∧ (score stats y < score stats x → selectWinner stats [x, y] = some x)
    ∧ (score stats x = score stats y → y.latency < x.latency →
        selectWinner stats [x, y] = some y)
    ∧ (score stats x = score stats y → x.latency ≤ y.latency →
        selectWinner stats [x, y] = some x) := by
  have hfold : selectWinner stats [x, y] = some (betterAttempt stats x y) :=
    rfl
  refine ⟨fun h => ?_, fun h => ?_, fun h1 h2 => ?_, fun h1 h2 => ?_⟩
  · rw [hfold]
    simp only [betterAttempt]
    rw [if_pos h]
  · rw [hfold]
    simp only [betterAttempt]
    rw [if_neg (not_lt.mpr h.le),
      if_neg (fun hc => absurd hc.1 (ne_of_gt h))]
  · rw [hfold]
    simp only [betterAttempt]
    rw [if_neg (not_lt.mpr h1.ge), if_pos ⟨h1, h2⟩]
  · rw [hfold]
    simp only [betterAttempt]
    rw [if_neg (not_lt.mpr h1.ge),
      if_neg (fun hc => absurd hc.2 (not_lt.mpr h2))]

/-- C2 witness: with both providers at success rate 1.0 and average latencies
1.0s vs 2.0s, the scores are 1.0 and 0.85 and the faster provider wins. -/
theorem competition_scoring_winner_witness :
    score zeroStats attemptA = 1
    ∧ score zeroStats attemptB = 17/20
    ∧ score zeroStats attemptB < score zeroStats attemptA
    ∧ selectWinner zeroStats [attemptA, attemptB] = some attemptA := by
  have hlt : score zeroStats attemptB < score zeroStats attemptA := by
    norm_num [score, recordAttempt, zeroStats, attemptA, attemptB]
  refine ⟨?_, ?_, hlt,
    (competition_scoring_winner zeroStats attemptA attemptB).2.1 hlt⟩
  · norm_num [score, recordAttempt, zeroStats, attemptA]
  · norm_num [score, recordAttempt, zeroStats, attemptB]

/-- Helper: recording only failed attempts never changes a success
counter. -/
theorem foldl_record_successes (p : String) :
    ∀ (l : List ProviderAttempt), (∀ a ∈ l, a.success = false) →
      ∀ st : ProviderStats,
        (l.foldl
          (fun st a => if a.provider = p then recordAttempt st a else st)
          st).successes = st.successes
  | [], _, _ => rfl
  | a :: t, h, st => by
    simp only [List.foldl_cons]
    rw [foldl_record_successes p t
      (fun b hb => h b (List.mem_cons_of_mem a hb))]
    by_cases hp : a.provider = p
    · rw [if_pos hp]
      simp [recordAttempt, h a (List.mem_cons_self a t)]
    · rw [if_neg hp]

/-- C5: when every provider's attempt fails, compete surfaces the
no-provider-available error instead of any partial answer, and no provider's
success counter is incremented by the call. -/
theorem compete_all_fail_no_provider (stats : String → ProviderStats)
    (attempts : List ProviderAttempt)
    (h : ∀ a ∈ attempts, a.success = false) :
    compete stats attempts = .error .noProviderAvailable
    ∧ ∀ p, (statsAfter stats attempts p).successes = (stats p).successes := by
  constructor
  · have hf : attempts.filter (fun a => a.success) = [] := by
      rw [List.filter_eq_nil_iff]
      intro a ha
      simp [h a ha]
    simp [compete, hf, selectWinner]
  · intro p
    exact foldl_record_successes p attempts h (stats p)

/-- C5 witness: a single failed attempt yields the no-provider-available
error and leaves the provider's success counter untouched. -/
theorem compete_all_fail_no_provider_witness :
    failedAttempt.success = false
    ∧ compete zeroStats [failedAttempt] = .error .noProviderAvailable
    ∧ (statsAfter zeroStats [failedAttempt] "groq").successes =
        (zeroStats "groq").successes :=
  ⟨by decide,
   (compete_all_fail_no_provider zeroStats [failedAttempt] (by decide)).1,
   (compete_all_fail_no_provider zeroStats [failedAttempt] (by decide)).2
     "groq"⟩

/-- C4: a progress session's completed-unit count never decreases under any
write, and once the session is terminal every update, fail, or complete call
is a no-op that leaves the snapshot unchanged; writes are total, so no call
raises an error. -/
theorem progress_monotone_terminal_noop (s : ProgressSession)
    (op : ProgressOp) :
    s.completedUnits ≤ (applyOp s op).completedUnits
    ∧ (isTerminal s.state = true → applyOp s op = s) := by
  constructor
  · cases op with
    | update units msg =>
      simp only [applyOp]
      split
      · exact le_refl _
      · exact le_max_left _ _
    | fail r =>
      simp only [applyOp]
      split <;> simp
    | complete m =>
      simp only [applyOp]
      split <;> simp
  · intro h
    cases op <;> simp [applyOp, h]

/-- C4 witness: updating a completed session changes nothing. -/
theorem progress_monotone_terminal_noop_witness :
    isTerminal (ProgressSession.mk .completed 5 10 "done").state = true
    ∧ applyOp (ProgressSession.mk .completed 5 10 "done")
        (.update 7 "late") = ProgressSession.mk .completed 5 10 "done" :=
  ⟨rfl,
   (progress_monotone_terminal_noop (ProgressSession.mk .completed 5 10 "done")
     (.update 7 "late")).2 rfl⟩
